import Mathlib

/-!
Verification of the TypeScript worker adapter (`src/esm/vs/language/typescript/tsWorker.js`).

The adapter exposes the open editor documents (mirror models), a static
registry of built-in declaration files (the lib registry, `libFileMap`), and a
mutable registry of extra declaration files, as one virtual file system for the
TypeScript language service, and sanitizes diagnostics before they cross the
worker boundary.

The JavaScript code is embedded shallowly: the adapter instance together with
its collaborators becomes an explicit `WorkerState` record, each host method
becomes a pure Lean function of that state, and JavaScript objects used as
string-keyed maps become association lists queried with `List.lookup`.
-/

namespace TsWorker

/-- One entry of `relatedInformation` on a diagnostic.  The `file` field is the
back-reference to the originating source file (cyclic in JavaScript, so it is
modelled as an `Option`); `rest` stands for all the other fields of the record
(code, category, message, positions), which the adapter never touches. -/
structure RelatedInformation where
  file : Option String
  rest : Nat
deriving DecidableEq, Repr

/-- An engine-produced diagnostic: the `file` back-reference, an optional list
of related diagnostics, and `rest` for all remaining fields. -/
structure Diagnostic where
  file : Option String
  relatedInformation : Option (List RelatedInformation)
  rest : Nat
deriving DecidableEq, Repr

/-- The slice of the external language service the adapter consults for
compiler-options diagnostics; the engine operation takes no file argument, so
it is a plain field of the collaborator. -/
structure LanguageService where
  compilerOptionsDiagnostics : List Diagnostic
deriving DecidableEq, Repr

/-- An open editor document as seen through the mirror-model directory:
its URI, version counter and current text. -/
structure MirrorModel where
  uri : String
  version : Nat
  value : String
deriving DecidableEq, Repr

/-- An extra-lib registry entry: declaration text plus a version counter. -/
structure ExtraLib where
  content : String
  version : Nat
deriving DecidableEq, Repr

/-- Compiler options, of which the adapter reads only the language `target`
tier (absent in JavaScript when the host did not set it) and the `allowJs`
flag. -/
structure CompilerOptions where
  target : Option Nat
  allowJs : Bool
deriving DecidableEq, Repr

/-- The adapter state: the mirror-model directory supplied by the context, the
extra-lib registry, the current compiler options, the static lib registry
(`libFileMap`, imported by the module and treated here as part of the state so
that theorems can quantify over its contents), and the language service. -/
structure WorkerState where
  mirrorModels : List MirrorModel
  extraLibs : List (String × ExtraLib)
  compilerOptions : CompilerOptions
  libFileMap : List (String × String)
  languageService : LanguageService
deriving DecidableEq, Repr

/-- JavaScript key-presence test (the `in` operator) on an object modelled as
an association list. -/
def hasKey {α : Type} (m : List (String × α)) (k : String) : Bool :=
  (m.lookup k).isSome

/-- Embeds `TypeScriptWorker.prototype.getCompilationSettings`. -/
def getCompilationSettings (s : WorkerState) : CompilerOptions :=
  s.compilerOptions

/-- Embeds `TypeScriptWorker.prototype.getScriptFileNames`: the mirror-model
URIs concatenated with the extra-lib registry keys. -/
def getScriptFileNames (s : WorkerState) : List String :=
  (s.mirrorModels.map (fun model => model.uri)) ++ (s.extraLibs.map (fun e => e.1))

/-- Embeds `TypeScriptWorker.prototype._getModel`: the first mirror model
whose URI stringifies to `fileName`, if any. -/
def getModel (s : WorkerState) (fileName : String) : Option MirrorModel :=
  s.mirrorModels.find? (fun model => model.uri == fileName)

/-- Embeds the JavaScript expression `options.target || 99`: `0` and an absent
target are falsy and give the default `99`. -/
def jsTargetOr99 (t : Option Nat) : Nat :=
  match t with
  | none => 99
  | some 0 => 99
  | some (n + 1) => n + 1

/-- Embeds the shared tail of the `switch` in
`TypeScriptWorker.prototype.getDefaultLibFileName` (the `default` body, which
the `ESNext` case also falls through into): look up the year-qualified name
in the lib registry and the extra-lib registry, else fall back to
`lib.es6.d.ts`. -/
def esLibLookup (s : WorkerState) (target : Option Nat) : String :=
  let eslib := "lib.es" ++ toString (2013 + jsTargetOr99 target) ++ ".full.d.ts"
  if hasKey s.libFileMap eslib || hasKey s.extraLibs eslib then eslib
  else "lib.es6.d.ts"

/-- Embeds `TypeScriptWorker.prototype.getDefaultLibFileName`. The `switch`
dispatches by strict equality on `options.target`: target `99` (ESNext) first
tries `lib.esnext.full.d.ts` in either registry and otherwise falls through
into the default body; targets `0` and `1` return `lib.d.ts` directly; every
other (or absent) target runs the default body (`esLibLookup`). -/
def getDefaultLibFileName (s : WorkerState) (options : CompilerOptions) : String :=
  if options.target == some 99 then
    let esnext := "lib.esnext.full.d.ts"
    if hasKey s.libFileMap esnext || hasKey s.extraLibs esnext then esnext
    else esLibLookup s options.target
  else if options.target == some 1 || options.target == some 0 then "lib.d.ts"
  else esLibLookup s options.target

/-- State-transformer form of `getDefaultLibFileName`: the method body reads
the registries and assigns nothing on the adapter, so the embedding pairs the
resolved name with the state it was given. -/
def getDefaultLibFileNameST (s : WorkerState) (options : CompilerOptions) :
    String × WorkerState :=
  (getDefaultLibFileName s options, s)

/-- Embeds `TypeScriptWorker.prototype.isDefaultLibFileName`. -/
def isDefaultLibFileName (s : WorkerState) (fileName : String) : Bool :=
  fileName == getDefaultLibFileName s s.compilerOptions

/-- Embeds `TypeScriptWorker.prototype.getScriptVersion`: open model version,
else `"1"` for the default lib, else the extra-lib version, else `""`. -/
def getScriptVersion (s : WorkerState) (fileName : String) : String :=
  match getModel s fileName with
  | some model => toString model.version
  | none =>
    if isDefaultLibFileName s fileName then "1"
    else
      match s.extraLibs.lookup fileName with
      | some lib => toString lib.version
      | none => ""

/-- Embeds `TypeScriptWorker.prototype._getScriptText` (the resolution behind
both `getScriptText` and `getScriptSnapshot`): open model text, else exact lib
registry key, else the lib-ized key `lib.<name>.d.ts`, else extra-lib content,
else absent. -/
def getScriptTextInternal (s : WorkerState) (fileName : String) : Option String :=
  let libizedFileName := "lib." ++ fileName ++ ".d.ts"
  match getModel s fileName with
  | some model => some model.value
  | none =>
    match s.libFileMap.lookup fileName with
    | some text => some text
    | none =>
      match s.libFileMap.lookup libizedFileName with
      | some text => some text
      | none =>
        match s.extraLibs.lookup fileName with
        | some lib => some lib.content
        | none => none

/-- Embeds `TypeScriptWorker.prototype.getScriptText`; the promise wrapper is
the identity in this embedding, so the asynchronous result is the internal
resolution itself. -/
def getScriptText (s : WorkerState) (fileName : String) : Option String :=
  getScriptTextInternal s fileName

/-- The snapshot object built by `getScriptSnapshot`: it closes over the
resolved text (`getText` and `getLength` read it, `getChangeRange` always
answers `undefined`). -/
structure ScriptSnapshot where
  text : String
deriving DecidableEq, Repr

/-- Embeds `TypeScriptWorker.prototype.getScriptSnapshot`: absent when the
internal resolution is absent, otherwise a snapshot over the resolved text. -/
def getScriptSnapshot (s : WorkerState) (fileName : String) : Option ScriptSnapshot :=
  match getScriptTextInternal s fileName with
  | none => none
  | some text => some { text := text }

/-- Embeds `fileName.substr(fileName.lastIndexOf(chr) + 1)` for `chr = .`:
the characters after the last dot; the whole name when there is no dot
(`lastIndexOf` answers `-1` and `substr(0)` is the whole string). -/
def lastSuffix (fileName : String) : String :=
  String.mk ((fileName.data.reverse.takeWhile (fun c => c ≠ '.')).reverse)

/-- The `ts.ScriptKind` values the adapter uses. -/
inductive ScriptKind where
  | JS
  | JSX
  | TS
  | TSX
deriving DecidableEq, Repr

/-- Embeds `TypeScriptWorker.prototype.getScriptKind`: switch on the suffix
after the last dot, defaulting on `allowJs`. -/
def getScriptKind (s : WorkerState) (fileName : String) : ScriptKind :=
  let suffix := lastSuffix fileName
  if suffix == "ts" then ScriptKind.TS
  else if suffix == "tsx" then ScriptKind.TSX
  else if suffix == "js" then ScriptKind.JS
  else if suffix == "jsx" then ScriptKind.JSX
  else if (getCompilationSettings s).allowJs then ScriptKind.JS
  else ScriptKind.TS

/-- Embeds the body of the `forEach` over `relatedInformation` in
`TypeScriptWorker.clearFiles`: clear the back-reference of one related
entry. -/
def clearRelated (diag2 : RelatedInformation) : RelatedInformation :=
  { diag2 with file := none }

/-- Embeds the body of the outer `forEach` in `TypeScriptWorker.clearFiles`:
clear the back-reference of one diagnostic and of each entry of its
related-information list when that list is present. -/
def clearDiag (diag : Diagnostic) : Diagnostic :=
  { diag with
    file := none
    relatedInformation := diag.relatedInformation.map (fun related => related.map clearRelated) }

/-- Embeds `TypeScriptWorker.clearFiles` (the JavaScript mutates the array in
place and returns it; the embedding returns the updated list). -/
def clearFiles (diagnostics : List Diagnostic) : List Diagnostic :=
  diagnostics.map clearDiag

/-- Embeds `TypeScriptWorker.prototype.getCompilerOptionsDiagnostics`: the
underlying engine call takes no file identity, and the result is sanitized. -/
def getCompilerOptionsDiagnostics (s : WorkerState) (fileName : String) : List Diagnostic :=
  clearFiles s.languageService.compilerOptionsDiagnostics

/-- The constructor `create` ends up instantiating: the default adapter class
or the replacement returned by the custom factory. -/
inductive WorkerClass where
  | defaultClass
  | customClass
deriving DecidableEq, Repr

/-- The creation payload handed to the module-level `create` function. -/
structure CreateData where
  compilerOptions : CompilerOptions
  extraLibs : List (String × ExtraLib)
  customWorkerPath : Option String
deriving DecidableEq, Repr

/-- The ambient execution context of `create`: whether `importScripts` exists
(a worker context), and whether executing the script at the locator leaves
`self.customTSWorkerFactory` populated. -/
structure WorkerEnv where
  importScriptsAvailable : Bool
  factoryPopulatedAfterImport : Bool
deriving DecidableEq, Repr

/-- Observable effects of one `create` call: whether the locator script was
executed via `importScripts`, and whether the non-worker warning was
logged. -/
structure CreateTrace where
  scriptExecuted : Bool
  warned : Bool
deriving DecidableEq, Repr

/-- Embeds the module-level `create` function: without a locator the default
class is constructed; with a locator, a context without `importScripts` logs
a warning and keeps the default class; otherwise the script is executed and
the global factory slot must be populated, else construction throws. -/
def create (env : WorkerEnv) (createData : CreateData) :
    Except String WorkerClass × CreateTrace :=
  match createData.customWorkerPath with
  | none => (Except.ok WorkerClass.defaultClass, { scriptExecuted := false, warned := false })
  | some path =>
    if env.importScriptsAvailable = false then
      (Except.ok WorkerClass.defaultClass, { scriptExecuted := false, warned := true })
    else if env.factoryPopulatedAfterImport then
      (Except.ok WorkerClass.customClass, { scriptExecuted := true, warned := false })
    else
      (Except.error ("The script at " ++ path ++ " does not add customTSWorkerFactory to self"),
       { scriptExecuted := true, warned := false })

/-! Definitions written from the words of the specification, to be compared
with the embeddings above. -/

/-- Modelled from the spec wording for the internal text resolution: a
four-source priority chain, first match wins — open document text, exact lib
registry match, lib-ized registry match, extra-lib content — and absent when
no source matches. -/
def scriptTextSpec (s : WorkerState) (fileName : String) : Option String :=
  ((s.mirrorModels.find? (fun model => model.uri == fileName)).map (fun model => model.value)) <|>
  (s.libFileMap.lookup fileName) <|>
  (s.libFileMap.lookup ("lib." ++ fileName ++ ".d.ts")) <|>
  ((s.extraLibs.lookup fileName).map (fun e => e.content))

/-- Modelled from the spec wording for version resolution: document version
stringified; else the constant "1" for the resolved default library; else the
extra-lib version stringified; else the empty string. -/
def scriptVersionSpec (s : WorkerState) (fileName : String) : String :=
  match s.mirrorModels.find? (fun model => model.uri == fileName) with
  | some doc => toString doc.version
  | none =>
    if fileName = getDefaultLibFileName s s.compilerOptions then "1"
    else
      match s.extraLibs.lookup fileName with
      | some entry => toString entry.version
      | none => ""

/-- Spec-side predicate: every diagnostic of the list has its back-reference
cleared, and so does every entry of its related-diagnostics list when that
list is present. -/
def allBackRefsCleared (diagnostics : List Diagnostic) : Bool :=
  diagnostics.all (fun diag =>
    diag.file == none &&
      (match diag.relatedInformation with
       | none => true
       | some related => related.all (fun diag2 => diag2.file == none)))

/-- Modelled from the spec as amended by claim C7: the extension is the
substring after the last dot, and a name with no dot at all is treated as if
the whole name were the extension; then ts, tsx, js, jsx map to the matching
kind, and anything else resolves on allowJs. -/
def scriptKindSpec (s : WorkerState) (fileName : String) : ScriptKind :=
  if lastSuffix fileName = "ts" then ScriptKind.TS
  else if lastSuffix fileName = "tsx" then ScriptKind.TSX
  else if lastSuffix fileName = "js" then ScriptKind.JS
  else if lastSuffix fileName = "jsx" then ScriptKind.JSX
  else if s.compilerOptions.allowJs then ScriptKind.JS
  else ScriptKind.TS

/-- The year-qualified default-library name of the spec: tier N maps to year
2013 + N. -/
def yearLibName (t : Nat) : String :=
  "lib.es" ++ toString (2013 + t) ++ ".full.d.ts"

/-- Spec-side presence test: the name is a key of the Lib Registry or of the
Extra-Lib Registry. -/
def inEitherRegistry (s : WorkerState) (name : String) : Bool :=
  hasKey s.libFileMap name || hasKey s.extraLibs name

/-- Modelled from the spec wording for default-library resolution: legacy
tiers 0 and 1 give the fixed lib.d.ts; tier 99 prefers lib.esnext.full.d.ts
when either registry has it; otherwise the year-qualified name when either
registry has it; else the fixed lib.es6.d.ts. -/
def defaultLibSpec (s : WorkerState) (t : Nat) : String :=
  if t = 0 ∨ t = 1 then "lib.d.ts"
  else if t = 99 ∧ inEitherRegistry s "lib.esnext.full.d.ts" = true then "lib.esnext.full.d.ts"
  else if inEitherRegistry s (yearLibName t) = true then yearLibName t
  else "lib.es6.d.ts"

/-- A worker state with allowJs unset, used as concrete input for counter-
examples and witnesses. -/
def plainState : WorkerState :=
  { mirrorModels := []
    extraLibs := []
    compilerOptions := { target := some 1, allowJs := false }
    libFileMap := []
    languageService := { compilerOptionsDiagnostics := [] } }

/-- A second concrete state: the registries of `plainState` unchanged, but an
open document added and different compiler options. -/
def plainStateVariant : WorkerState :=
  { plainState with
    mirrorModels := [{ uri := "file:///a.ts", version := 3, value := "let a = 1" }]
    compilerOptions := { target := some 2, allowJs := true } }

/-- A state in which an open document URI collides with an extra-lib key. -/
def collidingState : WorkerState :=
  { plainState with
    mirrorModels := [{ uri := "file:///a.ts", version := 1, value := "" }]
    extraLibs := [("file:///a.ts", { content := "", version := 1 })] }

/-- A context without `importScripts` and with the factory slot empty. -/
def envNoWorker : WorkerEnv :=
  { importScriptsAvailable := false, factoryPopulatedAfterImport := false }

/-- A worker context whose locator script fails to populate the factory
slot. -/
def envWorkerUnpopulated : WorkerEnv :=
  { importScriptsAvailable := true, factoryPopulatedAfterImport := false }

/-- A creation payload carrying a custom-implementation locator. -/
def customCreateData : CreateData :=
  { compilerOptions := { target := some 1, allowJs := false }
    extraLibs := []
    customWorkerPath := some "custom.js" }

/-! Helper lemmas shared by several claims. -/

/-- Clearing a single related entry is idempotent. -/
theorem clearRelated_idem (r : RelatedInformation) :
    clearRelated (clearRelated r) = clearRelated r := rfl

/-- Clearing a single diagnostic is idempotent. -/
theorem clearDiag_idem (d : Diagnostic) : clearDiag (clearDiag d) = clearDiag d := by
  cases d with
  | mk file related rest =>
    cases related with
    | none => rfl
    | some l =>
      simp [clearDiag, List.map_map]
      exact fun a _ => rfl

/-! Claims. -/

/-- C5: sanitizing a diagnostic list twice yields the same result as
sanitizing once, and after one application every diagnostic, and every entry
of a present related-diagnostics list, has its back-reference cleared; an
empty or absent related-diagnostics list is handled (the sanitizer is total
and leaves such a diagnostic with only its back-reference cleared). -/
theorem clearFiles_idem_and_clears (diagnostics : List Diagnostic) :
    clearFiles (clearFiles diagnostics) = clearFiles diagnostics ∧
      allBackRefsCleared (clearFiles diagnostics) = true ∧
      clearFiles [] = [] := by
  refine ⟨?_, ?_, rfl⟩
  · simp only [clearFiles, List.map_map]
    apply List.map_congr_left
    intro d _
    exact clearDiag_idem d
  · simp only [allBackRefsCleared, clearFiles, List.all_eq_true]
    intro d hd
    rcases List.mem_map.mp hd with ⟨d0, _, rfl⟩
    cases d0 with
    | mk file related rest =>
      cases related with
      | none => simp [clearDiag]
      | some l =>
        simp [clearDiag, clearRelated, List.all_eq_true]

/-- C6: the sanitizer leaves every field other than the back-reference
unchanged on every diagnostic and on every related entry, and preserves the
length and order of the list, the presence of each related-diagnostics list
and the length and order of each such list. -/
theorem clearFiles_frame (diagnostics : List Diagnostic) :
    (clearFiles diagnostics).map (fun d => d.rest) = diagnostics.map (fun d => d.rest) ∧
      (clearFiles diagnostics).map (fun d => d.relatedInformation.map (fun l => l.map (fun r => r.rest)))
        = diagnostics.map (fun d => d.relatedInformation.map (fun l => l.map (fun r => r.rest))) ∧
      (clearFiles diagnostics).length = diagnostics.length := by
  refine ⟨?_, ?_, by simp [clearFiles]⟩
  · simp only [clearFiles, List.map_map]
    apply List.map_congr_left
    intro d _
    rfl
  · simp only [clearFiles, List.map_map]
    apply List.map_congr_left
    intro d _
    cases d with
    | mk file related rest =>
      cases related with
      | none => rfl
      | some l => simp [clearDiag, clearRelated, List.map_map]

/-- C1: the internal text resolution behind `getScriptText` and
`getScriptSnapshot` is the four-source priority chain of the spec, first match
wins, and is absent (not a fault) when no source matches; the snapshot is
built over exactly the resolved text. -/
theorem getScriptText_resolution_order (s : WorkerState) (fileName : String) :
    getScriptText s fileName = scriptTextSpec s fileName ∧
      getScriptSnapshot s fileName
        = (scriptTextSpec s fileName).map (fun text => { text := text }) := by
  have h : getScriptTextInternal s fileName = scriptTextSpec s fileName := by
    simp only [getScriptTextInternal, scriptTextSpec, getModel]
    cases s.mirrorModels.find? (fun model => model.uri == fileName) <;>
      cases s.libFileMap.lookup fileName <;>
        cases s.libFileMap.lookup ("lib." ++ fileName ++ ".d.ts") <;>
          cases s.extraLibs.lookup fileName <;> rfl
  refine ⟨h, ?_⟩
  simp only [getScriptSnapshot, h]
  cases scriptTextSpec s fileName <;> rfl

/-- C3: `getScriptVersion` resolves exactly as the spec chain: first matching
open document version stringified, else the constant "1" when the name is the
default library resolved from the current compiler options, else the
extra-lib version stringified, else the empty string. -/
theorem getScriptVersion_spec (s : WorkerState) (fileName : String) :
    getScriptVersion s fileName = scriptVersionSpec s fileName := by
  simp only [getScriptVersion, scriptVersionSpec, getModel, isDefaultLibFileName]
  cases s.mirrorModels.find? (fun model => model.uri == fileName) with
  | some model => rfl
  | none =>
    by_cases hdef : fileName = getDefaultLibFileName s s.compilerOptions
    · simp [hdef]
    · simp only [if_neg hdef]
      rw [if_neg]
      simp [hdef]

/-- C7 counterexample: the file name "jsx" contains no dot, so it has no
extension, and allowJs is unset in `plainState`; the claim then requires TS,
but the code answers JSX, because `substr(lastIndexOf + 1)` turns a dotless
name into its own extension. -/
theorem getScriptKind_dotless_cex :
    getScriptKind plainState "jsx" = ScriptKind.JSX ∧ ScriptKind.JSX ≠ ScriptKind.TS := by
  constructor
  · rfl
  · decide

/-- C7 as amended: the extension is the substring after the last dot, a
dotless name counting whole as its extension; ts, tsx, js, jsx map to the
matching kind and every other extension resolves to JS when allowJs is set
and TS otherwise. -/
theorem getScriptKind_spec (s : WorkerState) (fileName : String) :
    getScriptKind s fileName = scriptKindSpec s fileName := by
  simp only [getScriptKind, scriptKindSpec, getCompilationSettings, beq_iff_eq]

/-- C2: default-library resolution for a present numeric target follows the
spec exactly: tiers 0 and 1 give lib.d.ts regardless of the registries; tier
99 prefers lib.esnext.full.d.ts when either registry has it; otherwise the
year-qualified name lib.es(2013 + tier).full.d.ts when either registry has
it; else lib.es6.d.ts. -/
theorem getDefaultLibFileName_spec (s : WorkerState) (t : Nat) (allowJs : Bool) :
    getDefaultLibFileName s { target := some t, allowJs := allowJs } = defaultLibSpec s t := by
  by_cases h99 : t = 99
  · subst h99
    by_cases hnext : inEitherRegistry s "lib.esnext.full.d.ts" = true
    · simp [getDefaultLibFileName, defaultLibSpec, inEitherRegistry] at hnext ⊢
      simp [hnext]
    · simp only [inEitherRegistry, Bool.or_eq_true, not_or] at hnext
      simp [getDefaultLibFileName, defaultLibSpec, esLibLookup, jsTargetOr99, yearLibName,
        inEitherRegistry, hnext.1, hnext.2]
  · rcases t with _ | _ | n
    · simp [getDefaultLibFileName, defaultLibSpec]
    · simp [getDefaultLibFileName, defaultLibSpec]
    · simp only [getDefaultLibFileName, defaultLibSpec, esLibLookup, jsTargetOr99, yearLibName,
        inEitherRegistry, beq_iff_eq, Option.some.injEq]
      simp [h99]

/-- C9: default-library resolution is deterministic and side-effect-free: the
result depends only on the passed compiler options, the Lib Registry and the
Extra-Lib Registry, so calls on states agreeing there return the identical
name, and the state-transformer form of the method returns its state
unchanged. -/
theorem getDefaultLibFileName_pure (s1 s2 : WorkerState) (options : CompilerOptions)
    (hlib : s1.libFileMap = s2.libFileMap) (hextra : s1.extraLibs = s2.extraLibs) :
    getDefaultLibFileName s1 options = getDefaultLibFileName s2 options ∧
      (getDefaultLibFileNameST s1 options).2 = s1 ∧
      (getDefaultLibFileNameST s2 options).2 = s2 := by
  refine ⟨?_, rfl, rfl⟩
  simp only [getDefaultLibFileName, esLibLookup, hlib, hextra]

/-- C9 witness: `plainState` and `plainStateVariant` share their registries
but differ in open documents and options; resolution agrees on them and the
state-transformer form leaves `plainState` unchanged. -/
theorem getDefaultLibFileName_pure_witness :
    getDefaultLibFileName plainState { target := some 99, allowJs := false }
        = getDefaultLibFileName plainStateVariant { target := some 99, allowJs := false } ∧
      (getDefaultLibFileNameST plainState { target := some 99, allowJs := false }).2
        = plainState :=
  have h := getDefaultLibFileName_pure plainState plainStateVariant
    { target := some 99, allowJs := false } rfl rfl
  ⟨h.1, h.2.1⟩

/-- C4 counterexample: when an open document URI coincides with an extra-lib
key, the enumeration lists that name twice, refuting the no-duplicates clause
of the claim. -/
theorem getScriptFileNames_dup_cex :
    getScriptFileNames collidingState = ["file:///a.ts", "file:///a.ts"] ∧
      ¬ (getScriptFileNames collidingState).Nodup := by
  refine ⟨rfl, ?_⟩
  decide

/-- C4 as amended: the enumeration, recomputed from the live state on each
call, is the mirror-model URIs in directory order followed by the extra-lib
keys in registry order, so its members are exactly the union of the two; it
is duplicate-free whenever the URIs are duplicate-free, the keys are
duplicate-free, and the two sets are disjoint (no de-duplication is performed
by the code itself). -/
theorem getScriptFileNames_union (s : WorkerState) :
    getScriptFileNames s
        = s.mirrorModels.map (fun model => model.uri) ++ s.extraLibs.map (fun e => e.1) ∧
      ((s.mirrorModels.map (fun model => model.uri)).Nodup →
        (s.extraLibs.map (fun e => e.1)).Nodup →
        (∀ x ∈ s.mirrorModels.map (fun model => model.uri),
            x ∉ s.extraLibs.map (fun e => e.1)) →
        (getScriptFileNames s).Nodup) := by
  refine ⟨rfl, ?_⟩
  intro h1 h2 hdisj
  exact List.nodup_append.mpr ⟨h1, h2, fun a ha hb => hdisj a ha hb⟩

/-- C4 witness: on `plainStateVariant` (one document, no extra libs) the
hypotheses of the amended claim hold and the enumeration is duplicate-free. -/
theorem getScriptFileNames_union_witness :
    (getScriptFileNames plainStateVariant).Nodup :=
  (getScriptFileNames_union plainStateVariant).2 (by decide) (by decide) (by decide)

/-- C8 counterexample: a payload carrying a locator, constructed in a context
without `importScripts`: the referenced script is never executed and
construction succeeds with the default class (only a warning is logged), even
though the global factory slot stays unpopulated — the claim instead requires
the script to run and construction to fail. -/
theorem create_without_worker_cex :
    create envNoWorker customCreateData
      = (Except.ok WorkerClass.defaultClass, { scriptExecuted := false, warned := true }) := rfl

/-- C8 as amended: when no locator is present the default constructor is used
unconditionally; when a locator is present and `importScripts` exists, the
referenced script is executed and construction throws exactly when the global
factory slot stays unpopulated after execution (when it is populated the
custom class is constructed); when a locator is present but `importScripts`
does not exist, only a warning is logged and the default constructor is
used. -/
theorem create_spec (env : WorkerEnv) (createData : CreateData) (path : String) :
    (createData.customWorkerPath = none →
      create env createData
        = (Except.ok WorkerClass.defaultClass, { scriptExecuted := false, warned := false })) ∧
    (createData.customWorkerPath = some path → env.importScriptsAvailable = true →
      (create env createData).2.scriptExecuted = true ∧
      (env.factoryPopulatedAfterImport = false →
        create env createData
          = (Except.error
              ("The script at " ++ path ++ " does not add customTSWorkerFactory to self"),
             { scriptExecuted := true, warned := false })) ∧
      (env.factoryPopulatedAfterImport = true →
        create env createData
          = (Except.ok WorkerClass.customClass, { scriptExecuted := true, warned := false }))) ∧
    (createData.customWorkerPath = some path → env.importScriptsAvailable = false →
      create env createData
        = (Except.ok WorkerClass.defaultClass, { scriptExecuted := false, warned := true })) := by
  refine ⟨fun hpath => ?_, fun hpath himp => ?_, fun hpath himp => ?_⟩
  · simp [create, hpath]
  · refine ⟨?_, fun hfac => ?_, fun hfac => ?_⟩
    · cases hfac : env.factoryPopulatedAfterImport <;> simp [create, hpath, himp, hfac]
    · simp [create, hpath, himp, hfac]
    · simp [create, hpath, himp, hfac]
  · simp [create, hpath, himp]

/-- C8 witness: in a worker context whose locator script leaves the slot
empty, the script is executed and construction fails with the configuration
error. -/
theorem create_spec_witness :
    (create envWorkerUnpopulated customCreateData).2.scriptExecuted = true ∧
      create envWorkerUnpopulated customCreateData
        = (Except.error
            ("The script at " ++ "custom.js" ++ " does not add customTSWorkerFactory to self"),
           { scriptExecuted := true, warned := false }) :=
  have h := (create_spec envWorkerUnpopulated customCreateData "custom.js").2.1 rfl rfl
  ⟨h.1, h.2.1 rfl⟩

/-- C10: the compiler-options diagnostics proxy ignores its file-name
argument: on any state, any two file names produce the same result. -/
theorem getCompilerOptionsDiagnostics_ignores_fileName (s : WorkerState)
    (fileName1 fileName2 : String) :
    getCompilerOptionsDiagnostics s fileName1 = getCompilerOptionsDiagnostics s fileName2 := rfl

end TsWorker
